import Mathlib

/-
Verification of the inventory-management application `src/app.py`
(a Streamlit CRUD front end over two Supabase tables,
`kategorie {id, nazwa}` and `produkty {id, nazwa, cena, liczba, kategoria_id}`).

The data-access functions and UI handlers of `app.py` are shallowly embedded
as pure Lean functions over an explicit database state.  Backend failures
(exceptions raised by the remote client) are modelled by an optional injected
fault string: `fault = some e` means the remote call raised an exception whose
`str(e)` is `e`; `fault = none` means the call reached the store, whose
behaviour is modelled by the `store*` functions.  Numeric row fields use `ℚ`
for prices and `Int` for ids and quantities.  Row fields whose column may be
absent from the remote schema (`cena`, `liczba`, `kategoria_id`) are `Option`
valued: `none` models a row in which the key is missing.
-/

namespace Magazyn

/-- A row of the `kategorie` table: `id` (server-assigned) and `nazwa` (name). -/
structure Category where
  id : Int
  nazwa : String
deriving Repr, DecidableEq

/-- A row of the `produkty` table.  `cena` (price), `liczba` (quantity) and
`kategoria_id` (foreign key) are optional because the remote schema may lack
the column or hold NULL; `app.py` reads them with `p.get(..., 0)` defaults. -/
structure Product where
  id : Int
  nazwa : String
  cena : Option ℚ
  liczba : Option Int
  kategoria_id : Option Int
deriving Repr, DecidableEq

/-- A product row as returned by `get_products_with_categories`: the row
`item.copy()` plus the flattened `kategoria_nazwa` key (app.py line 66). -/
structure FlatProduct where
  id : Int
  nazwa : String
  cena : Option ℚ
  liczba : Option Int
  kategoria_id : Option Int
  kategoria_nazwa : String
deriving Repr, DecidableEq

/-- The remote store state: the two tables. -/
structure DB where
  kategorie : List Category
  produkty : List Product
deriving Repr, DecidableEq

/-! ## Error handling (`handle_error`, app.py lines 40-49) -/

/-- The four error kinds of the spec's taxonomy, as distinguished by the four
branches of `handle_error`. -/
inductive ErrKind where
  | permissionDenied
  | notFound
  | schemaMismatch
  | unknown
deriving Repr, DecidableEq

/-- A classified, human-readable error report surfaced via `st.error`. -/
structure ErrReport where
  kind : ErrKind
  message : String
deriving Repr, DecidableEq

/-- Character-list prefix test (structurally recursive). -/
def prefixList : List Char → List Char → Bool
  | [], _ => true
  | _ :: _, [] => false
  | a :: as, b :: bs => a = b && prefixList as bs

/-- Substring occurrence of `needle` at any position of `hay`. -/
def containsSub (needle : List Char) : List Char → Bool
  | [] => prefixList needle []
  | h :: t => prefixList needle (h :: t) || containsSub needle t

/-- Python's substring test `needle in hay`. -/
def strContains (hay needle : String) : Bool :=
  containsSub needle.toList hay.toList

/-- `handle_error(e)` (app.py lines 40-49): classify the exception text by
substring tests, in order `"42501"`, `"404"`, `"42703"`, else fallback, and
emit one human-readable message (the `42703` and fallback branches include the
raw text). -/
def handle_error (e : String) : ErrReport :=
  if strContains e "42501" then
    ⟨.permissionDenied, "Brak uprawnien (RLS). Wylacz RLS w Supabase."⟩
  else if strContains e "404" then
    ⟨.notFound, "Nie znaleziono tabeli lub rekordu."⟩
  else if strContains e "42703" then
    ⟨.schemaMismatch, "Blad kolumny (sprawdz nazwy w bazie): " ++ e⟩
  else
    ⟨.unknown, "Wystapil blad: " ++ e⟩

/-! ## Remote store semantics

`app.py` only issues six query shapes against the store; their semantics,
described by the spec's external-interface section (order-by-column,
equality-filter delete/update, insert, join expansion), are modelled here.
-/

/-- Remote store: `select("*").order(orderKeyNazwa)` on `kategorie`, ordered
by `nazwa` ascending (the only ordering `app.py` requests on this table). -/
def storeSelectKategorie (db : DB) : List Category :=
  db.kategorie.mergeSort (fun a b => a.nazwa ≤ b.nazwa)

/-- Remote store: join expansion `produkty → kategorie` by foreign key; a
dangling or NULL `kategoria_id` joins to `none`. -/
def storeJoinKategoria (db : DB) (p : Product) : Option Category :=
  db.kategorie.find? (fun c => p.kategoria_id = some c.id)

/-- Remote store: `select("*, kategorie(nazwa)").order("id", desc=True)` on
`produkty`: rows ordered by `id` descending, each paired with its joined
category (or `none`). -/
def storeSelectProduktyJoin (db : DB) : List (Product × Option Category) :=
  (db.produkty.mergeSort (fun a b => b.id ≤ a.id)).map
    (fun p => (p, storeJoinKategoria db p))

/-- A fresh server-assigned id for an insert: one more than the largest id in
the table (ids are unique and immutable). -/
def freshId (ids : List Int) : Int :=
  (ids.foldr max 0) + 1

/-- Remote store: `insert({"nazwa": name})` into `kategorie`. -/
def storeInsertKategoria (db : DB) (name : String) : DB :=
  { db with kategorie :=
      db.kategorie ++ [⟨freshId (db.kategorie.map (·.id)), name⟩] }

/-- Remote store: `insert(data)` into `produkty`. -/
def storeInsertProdukt (db : DB) (data : Product) : DB :=
  { db with produkty :=
      db.produkty ++ [{ data with id := freshId (db.produkty.map (·.id)) }] }

/-- Modelled from the spec: the store's response to `delete().eq("id", x)` on
`produkty` when no row has id `x` is not in `src/` (it is the remote store's
behaviour); the spec specifies that deleting an already-deleted id reports a
`NotFound`-class failure, i.e. the store surfaces a 404-class error for a
stale id, which `handle_error` classifies as `NotFound`. -/
def storeDeleteProdukt (db : DB) (pid : Int) : Except String DB :=
  if db.produkty.any (fun p => p.id = pid) then
    .ok { db with produkty := db.produkty.filter (fun p => p.id ≠ pid) }
  else
    .error "404: record not found"

/-- Modelled from the spec: same stale-id behaviour for `kategorie` deletes. -/
def storeDeleteKategoria (db : DB) (cid : Int) : Except String DB :=
  if db.kategorie.any (fun c => c.id = cid) then
    .ok { db with kategorie := db.kategorie.filter (fun c => c.id ≠ cid) }
  else
    .error "404: record not found"

/-- Remote store: `update({"liczba": q}).eq("id", pid)` on `produkty`. -/
def storeUpdateLiczba (db : DB) (pid : Int) (q : Int) : DB :=
  { db with produkty :=
      db.produkty.map (fun p => if p.id = pid then { p with liczba := some q } else p) }

/-- Remote store: `update({"cena": c}).eq("id", pid)` on `produkty`. -/
def storeUpdateCena (db : DB) (pid : Int) (c : ℚ) : DB :=
  { db with produkty :=
      db.produkty.map (fun p => if p.id = pid then { p with cena := some c } else p) }

/-! ## Data-access functions (app.py lines 51-127)

Each function mirrors the `try/except` shape of its source: on an injected
fault (the remote call raised `e`) it calls `handle_error` and returns the
fallback value; otherwise it performs the store operation.  Mutations return
the new state, a success boolean, and the surfaced report (if any).
-/

/-- `get_data("kategorie", order_by="nazwa", ascending=True)` (app.py lines
51-58, called at line 134): on failure, surface `handle_error(e)` and return
`[]`; on success return the ordered rows. -/
def get_data (db : DB) (fault : Option String) :
    List Category × Option ErrReport :=
  match fault with
  | some e => ([], some (handle_error e))
  | none => (storeSelectKategorie db, none)

/-- Flattening step of `get_products_with_categories` (app.py line 66):
`flat['kategoria_nazwa'] = item['kategorie']['nazwa'] if item.get('kategorie')
else "---"`. -/
def flattenRow (pc : Product × Option Category) : FlatProduct :=
  { id := pc.1.id, nazwa := pc.1.nazwa, cena := pc.1.cena,
    liczba := pc.1.liczba, kategoria_id := pc.1.kategoria_id,
    kategoria_nazwa := match pc.2 with
      | some c => c.nazwa
      | none => "---" }

/-- `get_products_with_categories()` (app.py lines 60-71): fetch products
ordered by id descending with the category join, flatten each row; on failure
surface `handle_error(e)` and return `[]`. -/
def get_products_with_categories (db : DB) (fault : Option String) :
    List FlatProduct × Option ErrReport :=
  match fault with
  | some e => ([], some (handle_error e))
  | none => ((storeSelectProduktyJoin db).map flattenRow, none)

/-- `add_category(name)` (app.py lines 73-80). -/
def add_category (db : DB) (name : String) (fault : Option String) :
    DB × Bool × Option ErrReport :=
  match fault with
  | some e => (db, false, some (handle_error e))
  | none => (storeInsertKategoria db name, true, none)

/-- `delete_category(cat_id)` (app.py lines 82-89). -/
def delete_category (db : DB) (cid : Int) (fault : Option String) :
    DB × Bool × Option ErrReport :=
  match fault with
  | some e => (db, false, some (handle_error e))
  | none =>
    match storeDeleteKategoria db cid with
    | .ok db' => (db', true, none)
    | .error e => (db, false, some (handle_error e))

/-- `add_product(data)` (app.py lines 91-98). -/
def add_product (db : DB) (data : Product) (fault : Option String) :
    DB × Bool × Option ErrReport :=
  match fault with
  | some e => (db, false, some (handle_error e))
  | none => (storeInsertProdukt db data, true, none)

/-- `update_product_quantity(product_id, new_quantity)` (app.py lines 100-108). -/
def update_product_quantity (db : DB) (pid : Int) (q : Int)
    (fault : Option String) : DB × Bool × Option ErrReport :=
  match fault with
  | some e => (db, false, some (handle_error e))
  | none => (storeUpdateLiczba db pid q, true, none)

/-- `update_product_price(product_id, new_price)` (app.py lines 110-118). -/
def update_product_price (db : DB) (pid : Int) (c : ℚ)
    (fault : Option String) : DB × Bool × Option ErrReport :=
  match fault with
  | some e => (db, false, some (handle_error e))
  | none => (storeUpdateCena db pid c, true, none)

/-- `delete_product(prod_id)` (app.py lines 120-127). -/
def delete_product (db : DB) (pid : Int) (fault : Option String) :
    DB × Bool × Option ErrReport :=
  match fault with
  | some e => (db, false, some (handle_error e))
  | none =>
    match storeDeleteProdukt db pid with
    | .ok db' => (db', true, none)
    | .error e => (db, false, some (handle_error e))

/-! ## Startup configuration check (app.py lines 19-24) -/

/-- Outcome of process start: either running with the two secrets, or halted
(`st.error` then `st.stop()`) with a descriptive message. -/
inductive Startup where
  | started (url key : String)
  | halted (message : String)
deriving Repr, DecidableEq

/-- The startup block (app.py lines 19-24): read `SUPABASE_URL` and
`SUPABASE_KEY` from `st.secrets`; a missing secret raises
`FileNotFoundError`/`KeyError`, which the `except` turns into an error message
and `st.stop()`. -/
def startupCheck (secrets : String → Option String) : Startup :=
  match secrets "SUPABASE_URL", secrets "SUPABASE_KEY" with
  | some url, some key => .started url key
  | _, _ =>
    .halted "Brak konfiguracji! Upewnij sie, ze dodales SUPABASE_URL i SUPABASE_KEY."

/-! ## Render-time derived values (app.py lines 345-353, 372-381) -/

/-- `total_value` (app.py line 348):
`sum([p.get('cena', 0) * p.get('liczba', 0) for p in products]) if products
else 0`. -/
def total_value (products : List FlatProduct) : ℚ :=
  if products ≠ [] then
    (products.map (fun p => p.cena.getD 0 * ((p.liczba.getD 0 : Int) : ℚ))).sum
  else 0

/-- A row of the displayed product table `df_display` (app.py lines 376-381):
columns Nazwa, Cena, Ilosc, Wartosc (= cena * liczba), Kategoria. -/
structure DisplayRow where
  nazwa : String
  cena : ℚ
  liczba : Int
  wartosc : ℚ
  kategoria : String
deriving Repr, DecidableEq

/-- `df_display` (app.py lines 374-381): built from the fetched rows by the
fixed column accesses `df["cena"]`, `df["liczba"]`, `df["nazwa"]`,
`df["kategoria_nazwa"]`.  A pandas DataFrame built from a list of dicts only
has the columns that occur in the rows, so when a referenced column is absent
the access raises `KeyError` and the table does not render: modelled by
`none`.  (Rows come from one table with one remote schema, so a column is
present in all rows or in none.) -/
def df_display (products : List FlatProduct) : Option (List DisplayRow) :=
  if products.all (fun p => p.cena.isSome && p.liczba.isSome) then
    some (products.map (fun p =>
      { nazwa := p.nazwa, cena := p.cena.getD 0, liczba := p.liczba.getD 0,
        wartosc := p.cena.getD 0 * ((p.liczba.getD 0 : Int) : ℚ),
        kategoria := p.kategoria_nazwa }))
  else none

/-! ## Product tab gating and the category selectbox (app.py lines 362-365,
540-544) -/

/-- Key list of the Python dict comprehension
`{c['nazwa']: c['id'] for c in categories}` (app.py line 543): insertion
order, each key once at its first occurrence. -/
def pyDictKeys (categories : List Category) : List String :=
  categories.foldl (fun acc c => if c.nazwa ∈ acc then acc else acc ++ [c.nazwa]) []

/-- What the product tab renders (app.py lines 362-365): with zero categories
only a warning; otherwise the content, including the creation form whose
category selectbox offers `list(cat_map.keys())`. -/
inductive ProdTab where
  | warningOnly (message : String)
  | contentWithForm (categoryOptions : List String)
deriving Repr, DecidableEq

/-- The product-tab gate (app.py lines 362-365 and 540-544): `if not
categories:` show the warning, `else` render the tab, whose add-product form
offers exactly the keys of `cat_map`. -/
def tab_prod (categories : List Category) : ProdTab :=
  if categories = [] then
    .warningOnly "Aby rozpoczac, dodaj pierwsza kategorie."
  else
    .contentWithForm (pyDictKeys categories)

/-! ## Quick actions: quantity, price, delete (app.py lines 441-531) -/

/-- Lookup in the Python dict `prod_map = {p['nazwa']: p for p in products}`
(app.py line 446): a later row with the same name overwrites an earlier one,
so the lookup returns the last matching row. -/
def prod_map_lookup (products : List FlatProduct) (name : String) :
    Option FlatProduct :=
  products.foldl (fun acc p => if p.nazwa = name then some p else acc) none

/-- `next((p['id'] for p in products if p['nazwa'] == name), None)` (app.py
lines 503 and 527): the id of the first row with that name. -/
def first_match_id (products : List FlatProduct) (name : String) : Option Int :=
  (products.find? (fun p => p.nazwa = name)).map (·.id)

/-- The `(+)` / `(-)` radio of the quantity form. -/
inductive QtyOp where
  | plus
  | minus
deriving Repr, DecidableEq

/-- Outcome of the quantity-form submit handler: either a call
`update_product_quantity(pid, newQty)` is sent, or the submission is rejected
client-side with a validation message and no mutation is sent. -/
inductive QtySubmit where
  | mutate (pid : Int) (newQty : Int)
  | reject (message : String)
deriving Repr, DecidableEq

/-- The `update_qty_form` submit handler's arithmetic (app.py lines 463-480),
given the resolved product's current quantity `current_qty = p_data['liczba']`
and the form's `qty_input` (the widget enforces `qty_input ≥ 1`):
`(+)` sends `current + input`; `(-)` sends `current - input` when
`current_qty >= qty_input`, else shows `st.error` and sends nothing. -/
def update_qty_submit (op : QtyOp) (pid current_qty qty_input : Int) :
    QtySubmit :=
  match op with
  | .plus => .mutate pid (current_qty + qty_input)
  | .minus =>
    if current_qty ≥ qty_input then
      .mutate pid (current_qty - qty_input)
    else
      .reject ("Tylko " ++ toString current_qty ++ " szt.!")

/-- Forget the derived `kategoria_nazwa` of a flattened row, recovering the
underlying table row. -/
def FlatProduct.toProduct (p : FlatProduct) : Product :=
  ⟨p.id, p.nazwa, p.cena, p.liczba, p.kategoria_id⟩

/-! ## Helper lemmas -/

lemma ne_empty_of_append (s t : String) (hs : s ≠ "") : s ++ t ≠ "" := by
  intro h
  have hd := congrArg String.data h
  rw [String.data_append] at hd
  rcases List.append_eq_nil.mp hd with ⟨h1, _⟩
  exact hs (String.ext h1)

lemma handle_error_kind_cases (k : ErrKind) :
    k = .permissionDenied ∨ k = .notFound ∨ k = .schemaMismatch ∨ k = .unknown := by
  cases k <;> simp

lemma handle_error_message_ne (e : String) : (handle_error e).message ≠ "" := by
  unfold handle_error
  split_ifs <;> first
    | decide
    | exact ne_empty_of_append _ _ (by decide)

lemma mergeSortNazwa_pairwise (l : List Category) :
    (l.mergeSort (fun a b => a.nazwa ≤ b.nazwa)).Pairwise
      (fun a b => a.nazwa ≤ b.nazwa) := by
  have h := @List.sorted_mergeSort Category
    (fun a b => decide (a.nazwa ≤ b.nazwa)) ?_ ?_ l
  · simpa using h
  · intro a b c hab hbc
    simp only [decide_eq_true_eq] at *
    exact le_trans hab hbc
  · intro a b
    simpa using le_total a.nazwa b.nazwa

lemma mergeSortIdDesc_pairwise (l : List Product) :
    (l.mergeSort (fun a b => b.id ≤ a.id)).Pairwise
      (fun a b => b.id ≤ a.id) := by
  have h := @List.sorted_mergeSort Product
    (fun a b => decide (b.id ≤ a.id)) ?_ ?_ l
  · simpa using h
  · intro a b c hab hbc
    simp only [decide_eq_true_eq] at *
    omega
  · intro a b
    simpa using le_total b.id a.id

lemma fetch_eq (db : DB) :
    (get_products_with_categories db none).1
      = (db.produkty.mergeSort (fun a b => b.id ≤ a.id)).map
          (fun p => flattenRow (p, storeJoinKategoria db p)) := by
  simp [get_products_with_categories, storeSelectProduktyJoin, List.map_map]

lemma flattenRow_id (p : Product) (j : Option Category) :
    (flattenRow (p, j)).id = p.id := rfl

lemma toProduct_flattenRow (p : Product) (j : Option Category) :
    (flattenRow (p, j)).toProduct = p := rfl

lemma fetch_pairwise (db : DB) :
    ((get_products_with_categories db none).1).Pairwise
      (fun a b => b.id ≤ a.id) := by
  rw [fetch_eq, List.pairwise_map]
  exact mergeSortIdDesc_pairwise db.produkty

lemma fetch_mem (db : DB) (x : FlatProduct) :
    x ∈ (get_products_with_categories db none).1 ↔
      ∃ q ∈ db.produkty, x = flattenRow (q, storeJoinKategoria db q) := by
  rw [fetch_eq]
  simp only [List.mem_map, List.mem_mergeSort]
  exact ⟨fun ⟨q, hq, he⟩ => ⟨q, hq, he.symm⟩, fun ⟨q, hq, he⟩ => ⟨q, hq, he.symm⟩⟩

lemma fetch_perm (db : DB) :
    ((get_products_with_categories db none).1.map FlatProduct.toProduct).Perm
      db.produkty := by
  rw [fetch_eq, List.map_map]
  have hcomp : (FlatProduct.toProduct ∘ fun p => flattenRow (p, storeJoinKategoria db p))
      = id := funext fun p => rfl
  rw [hcomp, List.map_id]
  exact List.mergeSort_perm _ _

lemma pyDictKeys_go_mem (l : List Category) (acc : List String) (n : String) :
    n ∈ l.foldl (fun acc c => if c.nazwa ∈ acc then acc else acc ++ [c.nazwa]) acc
      ↔ n ∈ acc ∨ ∃ c ∈ l, c.nazwa = n := by
  induction l generalizing acc with
  | nil => simp
  | cons c l ih =>
    simp only [List.foldl_cons]
    by_cases h : c.nazwa ∈ acc
    · rw [if_pos h, ih]
      constructor
      · rintro (hn | ⟨d, hd, hdn⟩)
        · exact Or.inl hn
        · exact Or.inr ⟨d, List.mem_cons_of_mem _ hd, hdn⟩
      · rintro (hn | ⟨d, hd, hdn⟩)
        · exact Or.inl hn
        · rcases List.mem_cons.mp hd with rfl | hd'
          · exact Or.inl (hdn ▸ h)
          · exact Or.inr ⟨d, hd', hdn⟩
    · rw [if_neg h, ih]
      constructor
      · rintro (hn | ⟨d, hd, hdn⟩)
        · rcases List.mem_append.mp hn with hn' | hn'
          · exact Or.inl hn'
          · exact Or.inr ⟨c, List.mem_cons_self c l, (List.mem_singleton.mp hn').symm⟩
        · exact Or.inr ⟨d, List.mem_cons_of_mem _ hd, hdn⟩
      · rintro (hn | ⟨d, hd, hdn⟩)
        · exact Or.inl (List.mem_append.mpr (Or.inl hn))
        · rcases List.mem_cons.mp hd with rfl | hd'
          · exact Or.inl (List.mem_append.mpr (Or.inr (List.mem_singleton.mpr hdn.symm)))
          · exact Or.inr ⟨d, hd', hdn⟩

lemma pyDictKeys_mem (l : List Category) (n : String) :
    n ∈ pyDictKeys l ↔ ∃ c ∈ l, c.nazwa = n := by
  rw [pyDictKeys, pyDictKeys_go_mem]
  simp

/-! ## Claim theorems -/

/-- C1: every data-access operation catches every failure at its own boundary,
classifies it into exactly one of the four kinds (`PermissionDenied`,
`NotFound`, `SchemaMismatch`, `Unknown`) with a nonempty human-readable
message, and returns its fallback value instead of propagating the raw fault;
each mutation operation returns a success/failure boolean (`false` on any
fault, `true` on a completed insert/update). -/
theorem c1_error_boundary (db : DB) (e name : String) (data : Product)
    (cid pid q : Int) (c : ℚ) :
    ((handle_error e).kind = .permissionDenied ∨ (handle_error e).kind = .notFound ∨
      (handle_error e).kind = .schemaMismatch ∨ (handle_error e).kind = .unknown) ∧
    (handle_error e).message ≠ "" ∧
    get_data db (some e) = ([], some (handle_error e)) ∧
    get_products_with_categories db (some e) = ([], some (handle_error e)) ∧
    add_category db name (some e) = (db, false, some (handle_error e)) ∧
    delete_category db cid (some e) = (db, false, some (handle_error e)) ∧
    add_product db data (some e) = (db, false, some (handle_error e)) ∧
    update_product_quantity db pid q (some e) = (db, false, some (handle_error e)) ∧
    update_product_price db pid c (some e) = (db, false, some (handle_error e)) ∧
    delete_product db pid (some e) = (db, false, some (handle_error e)) ∧
    (add_category db name none).2.1 = true ∧
    (add_product db data none).2.1 = true ∧
    (update_product_quantity db pid q none).2.1 = true ∧
    (update_product_price db pid c none).2.1 = true := by
  exact ⟨handle_error_kind_cases _, handle_error_message_ne e, rfl, rfl, rfl, rfl,
    rfl, rfl, rfl, rfl, rfl, rfl, rfl, rfl⟩

/-- C3: `list_categories` (the `get_data` call on `kategorie`) returns the
categories sorted by name ascending (a permutation of the table, pairwise
`nazwa`-ordered); on any backend failure it surfaces the classified error and
returns the empty sequence, never raising past its boundary. -/
theorem c3_list_categories (db : DB) (e : String) :
    (get_data db none).2 = none ∧
    ((get_data db none).1).Perm db.kategorie ∧
    ((get_data db none).1).Pairwise (fun a b => a.nazwa ≤ b.nazwa) ∧
    get_data db (some e) = ([], some (handle_error e)) := by
  refine ⟨rfl, ?_, ?_, rfl⟩
  · exact List.mergeSort_perm _ _
  · exact mergeSortNazwa_pairwise db.kategorie

/-- C4: for current on-hand quantity `q` and requested decrement `d ≥ 1`:
if `d > q` the decrement is rejected client-side with a validation error and
no `update_product_quantity` call is sent; if `d ≤ q` the call
`update_product_quantity(pid, q - d)` is sent; decrementing by exactly `q`
sends quantity `0`. -/
theorem c4_decrement (pid q d : Int) (hd : 1 ≤ d) :
    (q < d →
      update_qty_submit .minus pid q d
          = .reject ("Tylko " ++ toString q ++ " szt.!") ∧
      ∀ pid' n, update_qty_submit .minus pid q d ≠ .mutate pid' n) ∧
    (d ≤ q → update_qty_submit .minus pid q d = .mutate pid (q - d)) ∧
    update_qty_submit .minus pid q q = .mutate pid 0 := by
  refine ⟨fun hlt => ⟨?_, ?_⟩, fun hle => ?_, ?_⟩
  · simp [update_qty_submit, not_le.mpr hlt]
  · intro pid' n
    simp [update_qty_submit, not_le.mpr hlt]
  · simp [update_qty_submit, hle]
  · simp [update_qty_submit]

theorem c4_decrement_witness :
    update_qty_submit .minus 7 5 5 = .mutate 7 0 :=
  (c4_decrement 7 5 5 (by decide)).2.2

/-- C5: the total inventory value metric equals Σ(price × quantity) over the
currently listed products, computed at render time from the freshly fetched
product list (equivalently, over the current `produkty` table rows); since the
statement holds for every store state, it holds in particular for the state
re-fetched after every successful mutation. -/
theorem c5_total_value (db : DB) :
    total_value (get_products_with_categories db none).1
      = ((get_products_with_categories db none).1.map
          (fun p => p.cena.getD 0 * ((p.liczba.getD 0 : Int) : ℚ))).sum ∧
    total_value (get_products_with_categories db none).1
      = (db.produkty.map
          (fun p => p.cena.getD 0 * ((p.liczba.getD 0 : Int) : ℚ))).sum := by
  have hfst : total_value (get_products_with_categories db none).1
      = ((get_products_with_categories db none).1.map
          (fun p => p.cena.getD 0 * ((p.liczba.getD 0 : Int) : ℚ))).sum := by
    rw [total_value]
    split_ifs with h
    · rfl
    · simp [not_ne_iff.mp h]
  refine ⟨hfst, hfst.trans ?_⟩
  have hmap : (get_products_with_categories db none).1.map
      (fun p => p.cena.getD 0 * ((p.liczba.getD 0 : Int) : ℚ))
      = ((get_products_with_categories db none).1.map FlatProduct.toProduct).map
          (fun p => p.cena.getD 0 * ((p.liczba.getD 0 : Int) : ℚ)) := by
    rw [List.map_map]
    rfl
  rw [hmap]
  exact ((fetch_perm db).map _).sum_eq

/-- C8: on every render with zero categories the product tab shows only a
warning and no creation form; with at least one category the creation form is
offered and its selectable options are exactly the existing category names. -/
theorem c8_category_gate (categories : List Category) :
    (categories = [] →
      tab_prod categories = .warningOnly "Aby rozpoczac, dodaj pierwsza kategorie.") ∧
    (categories ≠ [] → ∃ opts, tab_prod categories = .contentWithForm opts ∧
      ∀ n, n ∈ opts ↔ ∃ c ∈ categories, c.nazwa = n) := by
  refine ⟨fun h => by rw [tab_prod, if_pos h], fun h => ?_⟩
  refine ⟨pyDictKeys categories, by rw [tab_prod, if_neg h], ?_⟩
  exact pyDictKeys_mem categories

theorem c8_category_gate_witness :
    tab_prod [] = .warningOnly "Aby rozpoczac, dodaj pierwsza kategorie." ∧
    tab_prod [⟨1, "Elektronika"⟩] = .contentWithForm ["Elektronika"] :=
  ⟨(c8_category_gate []).1 rfl, rfl⟩

/-- C9: at process start, if either required secret (`SUPABASE_URL` or
`SUPABASE_KEY`) is absent, the process halts with a descriptive (nonempty)
message before serving any interaction; it runs only when both secrets are
present, with exactly those values. -/
theorem c9_startup (secrets : String → Option String) :
    ((secrets "SUPABASE_URL" = none ∨ secrets "SUPABASE_KEY" = none) →
      startupCheck secrets =
        .halted "Brak konfiguracji! Upewnij sie, ze dodales SUPABASE_URL i SUPABASE_KEY.") ∧
    ("Brak konfiguracji! Upewnij sie, ze dodales SUPABASE_URL i SUPABASE_KEY." ≠ "") ∧
    (∀ u k, startupCheck secrets = .started u k →
      secrets "SUPABASE_URL" = some u ∧ secrets "SUPABASE_KEY" = some k) := by
  refine ⟨fun h => ?_, by decide, fun u k h => ?_⟩
  · rw [startupCheck]
    rcases h with h | h <;> rw [h] <;> cases secrets "SUPABASE_URL" <;>
      cases secrets "SUPABASE_KEY" <;> rfl
  · rw [startupCheck] at h
    cases hu : secrets "SUPABASE_URL" <;> cases hk : secrets "SUPABASE_KEY" <;>
      rw [hu, hk] at h <;> simp_all

theorem c9_startup_witness :
    startupCheck (fun _ => none) =
      .halted "Brak konfiguracji! Upewnij sie, ze dodales SUPABASE_URL i SUPABASE_KEY." :=
  (c9_startup (fun _ => none)).1 (Or.inl rfl)

lemma fetch_id_mem (db : DB) (x : FlatProduct)
    (hx : x ∈ (get_products_with_categories db none).1) :
    ∃ q ∈ db.produkty, x.id = q.id := by
  obtain ⟨q, hq, rfl⟩ := (fetch_mem db x).mp hx
  exact ⟨q, hq, rfl⟩

lemma find?_first_rel {α : Type} (R : α → α → Prop) (pred : α → Bool) :
    ∀ l : List α, l.Pairwise R → ∀ p : α, l.find? pred = some p →
      ∀ q ∈ l, pred q = true → q = p ∨ R p q := by
  intro l
  induction l with
  | nil =>
    intro _ p h
    simp at h
  | cons x t ih =>
    intro hpw p h q hq hpred
    rcases List.pairwise_cons.mp hpw with ⟨hx, ht⟩
    by_cases hpx : pred x = true
    · rw [List.find?_cons_of_pos _ hpx] at h
      obtain rfl : x = p := Option.some.inj h
      rcases List.mem_cons.mp hq with rfl | hq'
      · exact Or.inl rfl
      · exact Or.inr (hx q hq')
    · rw [List.find?_cons_of_neg _ hpx] at h
      rcases List.mem_cons.mp hq with rfl | hq'
      · exact absurd hpred hpx
      · exact ih ht p h q hq' hpred

lemma prod_map_lookup_go (name : String) (l : List FlatProduct)
    (acc : Option FlatProduct) :
    l.foldl (fun acc p => if p.nazwa = name then some p else acc) acc
      = (l.reverse.find? (fun p => p.nazwa = name)).or acc := by
  induction l generalizing acc with
  | nil => simp
  | cons x t ih =>
    rw [List.foldl_cons, ih, List.reverse_cons, List.find?_append]
    cases hft : t.reverse.find? (fun p => p.nazwa = name) with
    | some r => simp
    | none =>
      simp only [Option.or]
      by_cases hx : x.nazwa = name
      · simp [List.find?, hx]
      · simp [List.find?, hx]

lemma prod_map_lookup_eq (l : List FlatProduct) (name : String) :
    prod_map_lookup l name = l.reverse.find? (fun p => p.nazwa = name) := by
  rw [prod_map_lookup, prod_map_lookup_go]
  cases l.reverse.find? (fun p => p.nazwa = name) <;> rfl

/-- C2: `list_products` returns (with no surfaced error) the products ordered
by id descending — a permutation of the `produkty` table — each enriched with
`kategoria_nazwa` by the left join: the joined category's name when the unique
category with the referenced id exists, and the sentinel `"---"` when the
referenced category no longer exists, instead of failing. -/
theorem c2_list_products (db : DB)
    (hk : (db.kategorie.map (fun c => c.id)).Nodup) :
    (get_products_with_categories db none).2 = none ∧
    ((get_products_with_categories db none).1.map FlatProduct.toProduct).Perm
      db.produkty ∧
    ((get_products_with_categories db none).1).Pairwise (fun a b => b.id ≤ a.id) ∧
    (∀ p ∈ (get_products_with_categories db none).1,
      (∀ c ∈ db.kategorie, p.kategoria_id ≠ some c.id) →
        p.kategoria_nazwa = "---") ∧
    (∀ p ∈ (get_products_with_categories db none).1, ∀ c ∈ db.kategorie,
      p.kategoria_id = some c.id → p.kategoria_nazwa = c.nazwa) := by
  refine ⟨rfl, fetch_perm db, fetch_pairwise db, ?_, ?_⟩
  · intro p hp hnone
    obtain ⟨q, hq, rfl⟩ := (fetch_mem db p).mp hp
    have hfind : db.kategorie.find? (fun c => q.kategoria_id = some c.id) = none := by
      rw [List.find?_eq_none]
      intro c hc
      simpa using hnone c hc
    simp [flattenRow, storeJoinKategoria, hfind]
  · intro p hp c hc hid
    obtain ⟨q, hq, rfl⟩ := (fetch_mem db p).mp hp
    have hq_id : q.kategoria_id = some c.id := hid
    have hsome : (db.kategorie.find? (fun x => q.kategoria_id = some x.id)).isSome := by
      rw [List.find?_isSome]
      exact ⟨c, hc, by simp [hq_id]⟩
    obtain ⟨c', hc'⟩ := Option.isSome_iff_exists.mp hsome
    have hpred := List.find?_some hc'
    have hmem' := List.mem_of_find?_eq_some hc'
    simp only [decide_eq_true_eq] at hpred
    have hcid : c.id = c'.id := Option.some.inj (hq_id.symm.trans hpred)
    have hcc : c = c' := List.inj_on_of_nodup_map hk hc hmem' hcid
    simp [flattenRow, storeJoinKategoria, hc', ← hcc]

theorem c2_list_products_witness :
    ((get_products_with_categories
        ⟨[⟨4, "Kat"⟩], [⟨1, "A", some 2, some 3, some 4⟩,
          ⟨2, "B", some 5, some 1, some 9⟩]⟩ none).1).Pairwise
      (fun a b => b.id ≤ a.id) :=
  (c2_list_products
    ⟨[⟨4, "Kat"⟩], [⟨1, "A", some 2, some 3, some 4⟩,
      ⟨2, "B", some 5, some 1, some 9⟩]⟩ (by decide)).2.2.1

/-- C6: after `delete_product(pid)` the subsequent `list_products` contains no
entry with id `pid` (whether the delete succeeded or the id was stale); and
deleting an already-deleted id does not crash: it returns `false` with a
`NotFound`-class report. -/
theorem c6_delete_product (db : DB) (pid : Int) :
    (∀ p ∈ (get_products_with_categories (delete_product db pid none).1 none).1,
      p.id ≠ pid) ∧
    ((∀ p ∈ db.produkty, p.id ≠ pid) →
      delete_product db pid none
        = (db, false, some ⟨.notFound, "Nie znaleziono tabeli lub rekordu."⟩)) := by
  constructor
  · intro p hp
    by_cases h : db.produkty.any (fun q => q.id = pid)
    · have hdel : (delete_product db pid none).1
          = { db with produkty := db.produkty.filter (fun q => q.id ≠ pid) } := by
        simp [delete_product, storeDeleteProdukt, h]
      rw [hdel] at hp
      obtain ⟨q, hq, hid⟩ := fetch_id_mem _ p hp
      have hqne := List.of_mem_filter hq
      simp only [decide_eq_true_eq] at hqne
      rw [hid]
      exact hqne
    · have hfalse : db.produkty.any (fun q => q.id = pid) = false :=
        Bool.eq_false_iff.mpr h
      have hdel : (delete_product db pid none).1 = db := by
        simp [delete_product, storeDeleteProdukt, hfalse]
      rw [hdel] at hp
      obtain ⟨q, hq, hid⟩ := fetch_id_mem _ p hp
      rw [List.any_eq_false] at hfalse
      have := hfalse q hq
      simp only [decide_eq_true_eq] at this
      rw [hid]
      exact this
  · intro hall
    have hfalse : db.produkty.any (fun q => q.id = pid) = false := by
      rw [List.any_eq_false]
      intro q hq
      simpa using hall q hq
    simp only [delete_product, storeDeleteProdukt, hfalse]
    norm_num
    decide

theorem c6_delete_product_witness :
    delete_product ⟨[], [⟨2, "A", some 1, some 1, none⟩]⟩ 5 none
      = (⟨[], [⟨2, "A", some 1, some 1, none⟩]⟩, false,
          some ⟨.notFound, "Nie znaleziono tabeli lub rekordu."⟩) :=
  (c6_delete_product ⟨[], [⟨2, "A", some 1, some 1, none⟩]⟩ 5).2 (by decide)

/-- C7 counterexample: the claim says the product list still renders using
only the columns that do exist; but on a fetched row set from an environment
without the `liczba` (quantity) column — here one product row whose `liczba`
key is absent — the fixed column access fails and the table does not render. -/
theorem c7_missing_column_render_fails :
    df_display [⟨1, "Opony", some 10, none, some 1, "Kola"⟩] = none := by
  decide

/-- C7 (amended): when an inserted product references a column absent from the
remote schema, the failure is surfaced as a `SchemaMismatch`-class message
(distinct from the permission and not-found kinds, carrying the raw detail);
however, the product list renders only when every referenced column (`cena`,
`liczba`) is present in the fetched rows — when the quantity column is absent
from a fetched row the table fails to render rather than rendering with the
remaining columns. -/
theorem c7_schema_mismatch (db : DB) (data : Product) (e : String)
    (h501 : strContains e "42501" = false) (h404 : strContains e "404" = false)
    (h703 : strContains e "42703" = true) :
    handle_error e
      = ⟨.schemaMismatch, "Blad kolumny (sprawdz nazwy w bazie): " ++ e⟩ ∧
    ErrKind.schemaMismatch ≠ ErrKind.permissionDenied ∧
    ErrKind.schemaMismatch ≠ ErrKind.notFound ∧
    add_product db data (some e)
      = (db, false,
          some ⟨.schemaMismatch, "Blad kolumny (sprawdz nazwy w bazie): " ++ e⟩) ∧
    (∀ ps : List FlatProduct, (∃ p ∈ ps, p.liczba = none) → df_display ps = none) ∧
    (∀ ps : List FlatProduct, (∀ p ∈ ps, p.cena.isSome ∧ p.liczba.isSome) →
      df_display ps ≠ none) := by
  have herr : handle_error e
      = ⟨.schemaMismatch, "Blad kolumny (sprawdz nazwy w bazie): " ++ e⟩ := by
    rw [handle_error, if_neg (by simp [h501]), if_neg (by simp [h404]),
      if_pos h703]
  refine ⟨herr, by decide, by decide, by simp [add_product, herr], ?_, ?_⟩
  · intro ps ⟨p, hp, hnone⟩
    rw [df_display, if_neg]
    intro hall
    rw [List.all_eq_true] at hall
    have := hall p hp
    simp [hnone] at this
  · intro ps hall
    rw [df_display, if_pos]
    · exact fun h => Option.noConfusion h
    · rw [List.all_eq_true]
      intro p hp
      rcases hall p hp with ⟨h1, h2⟩
      simp [h1, h2]

theorem c7_schema_mismatch_witness :
    handle_error "42703: column produkty.liczba does not exist"
      = ⟨.schemaMismatch,
          "Blad kolumny (sprawdz nazwy w bazie): 42703: column produkty.liczba does not exist"⟩ :=
  (c7_schema_mismatch ⟨[], []⟩ ⟨0, "", none, none, none⟩
    "42703: column produkty.liczba does not exist"
    (by decide) (by decide) (by decide)).1

/-- C10 (implicit): the per-product quick actions identify the target row by
product name; over the fetched id-descending list, the quantity form's
name-keyed dictionary resolves a duplicated name to the last occurrence — the
matching row of minimal id — while the price-change and delete handlers'
first-match search resolves it to the matching row of maximal id; each lookup
yields exactly one row. -/
theorem c10_name_resolution (db : DB) (name : String) :
    ((∃ q ∈ (get_products_with_categories db none).1, q.nazwa = name) →
      ∃ p, prod_map_lookup (get_products_with_categories db none).1 name = some p ∧
        p ∈ (get_products_with_categories db none).1 ∧ p.nazwa = name ∧
        ∀ q ∈ (get_products_with_categories db none).1,
          q.nazwa = name → p.id ≤ q.id) ∧
    ((∃ q ∈ (get_products_with_categories db none).1, q.nazwa = name) →
      ∃ p, first_match_id (get_products_with_categories db none).1 name = some p.id ∧
        p ∈ (get_products_with_categories db none).1 ∧ p.nazwa = name ∧
        ∀ q ∈ (get_products_with_categories db none).1,
          q.nazwa = name → q.id ≤ p.id) := by
  have hpw := fetch_pairwise db
  constructor
  · rintro ⟨q0, hq0, hq0n⟩
    rw [prod_map_lookup_eq]
    have hsome : ((get_products_with_categories db none).1.reverse.find?
        (fun p => p.nazwa = name)).isSome := by
      rw [List.find?_isSome]
      exact ⟨q0, List.mem_reverse.mpr hq0, by simp [hq0n]⟩
    obtain ⟨p, hp⟩ := Option.isSome_iff_exists.mp hsome
    have hpmem := List.mem_reverse.mp (List.mem_of_find?_eq_some hp)
    have hpn := List.find?_some hp
    simp only [decide_eq_true_eq] at hpn
    refine ⟨p, hp, hpmem, hpn, ?_⟩
    intro q hq hqn
    have hrev : ((get_products_with_categories db none).1.reverse).Pairwise
        (fun a b : FlatProduct => a.id ≤ b.id) :=
      List.pairwise_reverse.mpr hpw
    rcases find?_first_rel _ _ _ hrev p hp q (List.mem_reverse.mpr hq)
        (by simp [hqn]) with rfl | hle
    · exact le_refl _
    · exact hle
  · rintro ⟨q0, hq0, hq0n⟩
    have hsome : ((get_products_with_categories db none).1.find?
        (fun p => p.nazwa = name)).isSome := by
      rw [List.find?_isSome]
      exact ⟨q0, hq0, by simp [hq0n]⟩
    obtain ⟨p, hp⟩ := Option.isSome_iff_exists.mp hsome
    have hpmem := List.mem_of_find?_eq_some hp
    have hpn := List.find?_some hp
    simp only [decide_eq_true_eq] at hpn
    refine ⟨p, by simp [first_match_id, hp], hpmem, hpn, ?_⟩
    intro q hq hqn
    rcases find?_first_rel _ _ _ hpw p hp q hq (by simp [hqn]) with rfl | hle
    · exact le_refl _
    · exact hle

theorem c10_name_resolution_witness :
    ∃ p, prod_map_lookup (get_products_with_categories
        ⟨[], [⟨1, "A", none, none, none⟩, ⟨2, "A", none, none, none⟩]⟩ none).1 "A"
      = some p ∧
      p ∈ (get_products_with_categories
        ⟨[], [⟨1, "A", none, none, none⟩, ⟨2, "A", none, none, none⟩]⟩ none).1 ∧
      p.nazwa = "A" ∧
      ∀ q ∈ (get_products_with_categories
        ⟨[], [⟨1, "A", none, none, none⟩, ⟨2, "A", none, none, none⟩]⟩ none).1,
        q.nazwa = "A" → p.id ≤ q.id :=
  (c10_name_resolution
    ⟨[], [⟨1, "A", none, none, none⟩, ⟨2, "A", none, none, none⟩]⟩ "A").1
    ⟨⟨2, "A", none, none, none, "---"⟩,
      (fetch_mem ⟨[], [⟨1, "A", none, none, none⟩, ⟨2, "A", none, none, none⟩]⟩
          ⟨2, "A", none, none, none, "---"⟩).mpr
        ⟨⟨2, "A", none, none, none⟩,
          List.mem_cons_of_mem _ (List.mem_cons_self _ _), rfl⟩, rfl⟩

end Magazyn
